import Mathlib

/-!
# Verification of the agentic-rag backup/restore engine and its CLI driver

The repository ships the CLI driver `backend/restore_backup.py`, which drives
three engine entry points (`list_backups`, `get_backup_info`, `restore_backup`)
living in `utils/backup.py`.  The CLI logic below is embedded directly from
`restore_backup.py`; the engine itself is not part of the source tree, so its
operations are modelled from the specification (each such definition says so
in its doc comment).
-/

namespace AgenticRag

/-! ## Data model -/

/-- A document record held in the live store (identifier plus payload). -/
structure Doc where
  id : Nat
  payload : String
deriving DecidableEq, Repr

/-- A parsed row record; `docId` references the owning document. -/
structure Row where
  id : Nat
  docId : Nat
  payload : String
deriving DecidableEq, Repr

/-- A vector-search collection record. -/
structure Coll where
  id : Nat
  payload : String
deriving DecidableEq, Repr

/-- An embedding: a derived vector artifact tied to an owning row. -/
structure Embedding where
  id : Nat
  rowId : Nat
deriving DecidableEq, Repr

/-- The live data store mutated in place by a restore: the three record
tables, the embeddings table, and the uploads location (filename ↦ bytes). -/
structure Store where
  documents : List Doc
  rows : List Row
  collections : List Coll
  embeddings : List Embedding
  uploads : List (String × List Nat)
deriving DecidableEq, Repr

/-- One entry of a snapshot's file archive.  `content = none` models an
unreadable file entry; `some bytes` a readable one. -/
structure FileEntry where
  name : String
  content : Option (List Nat)
deriving DecidableEq, Repr

/-- Modelled from the spec: the on-disk snapshot unit addressed by
`timestampId` — a database-record dump covering documents, rows and
collections, plus an optional file archive.  Snapshots are immutable;
the engine only reads them. -/
structure Snapshot where
  timestampId : String
  docs : List Doc
  rows : List Row
  colls : List Coll
  files : List FileEntry
deriving DecidableEq, Repr

/-- Modelled from the spec: `SnapshotMetadata` as parsed from a snapshot
directory's metadata record (the resolved `path` is computed at lookup
time and is not part of the persisted record). -/
structure SnapshotMetadata where
  timestampId : String
  documentsCount : Nat
  rowsCount : Nat
  collectionsCount : Nat
  filesCount : Nat
  totalFileBytes : Nat
  reason : Option String
  createdAt : String
deriving DecidableEq, Repr

/-- The `RestoreStats` record returned by `restore_backup` and consumed by
the CLI (`stats['documents_restored']`, …, `stats['errors']`). -/
structure RestoreStats where
  documentsRestored : Nat
  rowsRestored : Nat
  collectionsRestored : Nat
  filesRestored : Nat
  errors : List String
deriving DecidableEq, Repr

/-- Fatal error conditions of a restore: the snapshot could not be resolved,
or the database phase could not complete. -/
inductive RestoreError where
  | notFound
  | databasePhaseFailure
deriving DecidableEq, Repr

/-! ## SnapshotCatalog -/

/-- Modelled from the spec: the backup storage root, as a base path plus the
candidate snapshot directories found under it.  Each candidate carries the
result of attempting to parse its metadata record: `none` means the record
is missing or unparsable. -/
structure BackupRoot where
  basePath : String
  entries : List (String × Option SnapshotMetadata)
deriving Repr

/-- Descending order on catalog entries: most-recent `timestampId` first
(lexicographic order on the fixed-width timestamp format). -/
def metaDesc (a b : SnapshotMetadata) : Prop :=
  b.timestampId ≤ a.timestampId

instance : DecidableRel metaDesc := fun a b =>
  inferInstanceAs (Decidable (b.timestampId ≤ a.timestampId))

instance : IsTotal SnapshotMetadata metaDesc :=
  ⟨fun a b => le_total b.timestampId a.timestampId⟩

instance : IsTrans SnapshotMetadata metaDesc :=
  ⟨fun _ _ _ h1 h2 => le_trans h2 h1⟩

/-- Modelled from the spec: `listSnapshots` (the engine's `list_backups`).
Scans the backup root, keeps only the candidates whose metadata record
parses, and orders the result most-recent-first by `timestampId`.  It never
fails: corrupt candidates are skipped and an empty root yields `[]`. -/
def listSnapshots (root : BackupRoot) : List SnapshotMetadata :=
  List.insertionSort metaDesc (root.entries.filterMap Prod.snd)

/-! ## SnapshotInspector -/

/-- Modelled from the spec: syntactic well-formedness of a `timestampId` —
non-empty with the plausible fixed-width shape `YYYY-MM-DD_HH-MM-SS`
(digits everywhere except dashes at positions 4, 7, 13, 16 and an
underscore at position 10). -/
def wellFormedTimestampId (id : String) : Bool :=
  let cs := id.toList
  cs.length == 19 &&
    (List.range 19).all fun i =>
      match cs[i]? with
      | none => false
      | some c =>
        if i == 4 || i == 7 || i == 13 || i == 16 then c == '-'
        else if i == 10 then c == '_'
        else c.isDigit

/-- Modelled from the spec: `getSnapshotInfo` (the engine's
`get_backup_info`).  Malformed ids, absent directories and unparsable
metadata all yield `none` — absence, never an exception — and a successful
lookup returns the metadata augmented with the resolved absolute path. -/
def getSnapshotInfo (root : BackupRoot) (id : String) :
    Option (SnapshotMetadata × String) :=
  if wellFormedTimestampId id then
    match root.entries.lookup id with
    | some (some m) => some (m, root.basePath ++ "/" ++ id)
    | some none => none
    | none => none
  else none

/-! ## RestoreEngine -/

/-- The three steps of the atomic database phase, used to inject a
simulated failure at any one of them. -/
inductive DbStep where
  | delete
  | insert
  | commit
deriving DecidableEq, Repr

/-- Modelled from the spec: step 2(a), delete in dependency order —
rows/embeddings that reference documents are removed before the documents
themselves. -/
def deleteDependents (s : Store) : Store :=
  { s with embeddings := [], rows := [] }

/-- Modelled from the spec: step 2(a) continued, delete the documents. -/
def deleteDocuments (s : Store) : Store :=
  { s with documents := [] }

/-- Modelled from the spec: step 2(a) continued, collections are removed
independently of documents. -/
def deleteCollections (s : Store) : Store :=
  { s with collections := [] }

/-- Modelled from the spec: step 2(b), bulk-insert the document, row and
collection records captured in the snapshot dump, preserving their
original identifiers exactly. -/
def insertRecords (snap : Snapshot) (s : Store) : Store :=
  { s with
    documents := s.documents ++ snap.docs
    rows := s.rows ++ snap.rows
    collections := s.collections ++ snap.colls }

/-- Modelled from the spec: the all-or-nothing database transaction.
`failAt` injects a simulated failure at the given step (e.g. a constraint
violation during insert); any failure aborts the transaction, so the
partially mutated transaction state is discarded and `none` is returned. -/
def dbPhaseTxn (snap : Snapshot) (failAt : Option DbStep) (s : Store) :
    Option Store :=
  if failAt = some DbStep.delete then none
  else
    let t1 := deleteCollections (deleteDocuments (deleteDependents s))
    if failAt = some DbStep.insert then none
    else
      let t2 := insertRecords snap t1
      if failAt = some DbStep.commit then none
      else some t2

/-- Modelled from the spec: copying one archived file into the live uploads
location, overwriting any file with the same name. -/
def copyFile (uploads : List (String × List Nat)) (name : String)
    (content : List Nat) : List (String × List Nat) :=
  (name, content) :: uploads.filter fun p => p.1 ≠ name

/-- Modelled from the spec: the best-effort file phase.  Each file entry is
attempted independently: an unreadable entry appends one description to the
errors list and processing continues with the next entry.  Returns the
updated store, the count of files restored, and the accumulated errors. -/
def filePhase (files : List FileEntry) (s : Store) :
    Store × Nat × List String :=
  match files with
  | [] => (s, 0, [])
  | e :: rest =>
    match e.content with
    | some c =>
      let r := filePhase rest { s with uploads := copyFile s.uploads e.name c }
      (r.1, r.2.1 + 1, r.2.2)
    | none =>
      let r := filePhase rest s
      (r.1, r.2.1, (e.name ++ ": copy failed") :: r.2.2)

/-- Modelled from the spec: `restore` (the engine's `restore_backup`).
Resolves the snapshot (`none` models a snapshot that does not resolve),
runs the atomic database phase — rolling back to the unchanged pre-restore
store on failure — then, only when `restoreFiles` is true, the best-effort
file phase.  Returns the resulting live store together with either a fatal
`RestoreError` or the aggregated `RestoreStats`. -/
def restore (snap? : Option Snapshot) (failAt : Option DbStep)
    (restoreFiles : Bool) (s : Store) :
    Store × Except RestoreError RestoreStats :=
  match snap? with
  | none => (s, Except.error RestoreError.notFound)
  | some snap =>
    match dbPhaseTxn snap failAt s with
    | none => (s, Except.error RestoreError.databasePhaseFailure)
    | some s1 =>
      if restoreFiles then
        let r := filePhase snap.files s1
        (r.1, Except.ok
          { documentsRestored := snap.docs.length
            rowsRestored := snap.rows.length
            collectionsRestored := snap.colls.length
            filesRestored := r.2.1
            errors := r.2.2 })
      else
        (s1, Except.ok
          { documentsRestored := snap.docs.length
            rowsRestored := snap.rows.length
            collectionsRestored := snap.colls.length
            filesRestored := 0
            errors := [] })

/-! ## CLI driver (embedded from `backend/restore_backup.py`) -/

/-- From `main`, line 172: `restore_files=not args.no_files`. -/
def cliRestoreFilesFlag (noFiles : Bool) : Bool :=
  !noFiles

/-- Python's `str.strip()`: remove leading and trailing whitespace. -/
def pyStrip (s : String) : String :=
  String.mk
    (((s.data.dropWhile Char.isWhitespace).reverse.dropWhile
        Char.isWhitespace).reverse)

/-- Python's `str.lower()`: lowercase every character. -/
def pyLower (s : String) : String :=
  String.mk (s.data.map Char.toLower)

/-- From `main`, line 165: `response = input(...).strip().lower()`. -/
def cliNormalizeResponse (response : String) : String :=
  pyLower (pyStrip response)

/-- From `main`, lines 164-168: the confirmation gate.  The prompt response
is stripped of surrounding whitespace and lowercased, and the restore
proceeds only with `--yes` or a response of `y`/`yes`. -/
def cliConfirmAccepted (yesFlag : Bool) (response : String) : Bool :=
  yesFlag ||
    (cliNormalizeResponse response == "y" ||
      cliNormalizeResponse response == "yes")

/-- From `main`, lines 164-193: the restore branch after the backup has been
resolved.  Returns whether `restore_backup` was invoked and the process
exit code: a declined confirmation cancels with exit 0 (line 168), a
successful restore exits 0 (line 190), and an exception from the engine is
caught and turned into exit 1 (lines 191-193). -/
def cliRestoreBranch (yesFlag : Bool) (response : String)
    (result : Except RestoreError RestoreStats) : Bool × Nat :=
  if cliConfirmAccepted yesFlag response then
    match result with
    | Except.ok _ => (true, 0)
    | Except.error _ => (true, 1)
  else (false, 0)

/-- From `main`, lines 180-183: on a returned stats record the CLI prints at
most the first 5 entries of `stats['errors']` (none when the list is
empty). -/
def cliErrorLinesPrinted (stats : RestoreStats) : List String :=
  if stats.errors.isEmpty then [] else stats.errors.take 5

/-- From `main`, lines 186-188: the note that document embeddings were NOT
restored is printed only when `stats['documents_restored'] > 0`. -/
def cliPrintsEmbeddingNote (stats : RestoreStats) : Bool :=
  decide (0 < stats.documentsRestored)

/-- From `main`, lines 83-88 and 113-116: the `--list` branch always exits 0;
the second component records whether the `No backups found.` message was
printed (exactly when the catalog came back empty). -/
def cliListBranch (backups : List SnapshotMetadata) : Nat × Bool :=
  if backups.isEmpty then (0, true) else (0, false)

/-- From `main`, lines 136-141: before restoring, the CLI tests the lookup
result for falsiness; a missing backup prints `Backup not found` and exits
1 without reaching the restore branch. -/
def cliLookupFailed (info : Option (SnapshotMetadata × String)) : Bool :=
  info.isNone

/-! ## Sample data used by concrete witnesses -/

/-- An empty live store. -/
def store0 : Store := ⟨[], [], [], [], []⟩

/-- A live store holding unrelated pre-restore data, including an embedding
and a stale upload. -/
def storePre : Store :=
  ⟨[⟨9, "old-doc"⟩], [⟨9, 9, "old-row"⟩], [⟨5, "old-coll"⟩], [⟨1, 9⟩],
   [("stale.bin", [0])]⟩

/-- A small snapshot with one record of each kind, one readable file and one
unreadable file. -/
def snapSmall : Snapshot :=
  ⟨"2026-01-28_15-30-00", [⟨1, "doc-a"⟩], [⟨1, 1, "row-a"⟩], [⟨7, "coll-a"⟩],
   [⟨"f1", some [1, 2]⟩, ⟨"f2", none⟩]⟩

/-- The run of `restore` on `snapSmall` over `storePre` with files. -/
def restoreSmall : Store × Except RestoreError RestoreStats :=
  restore (some snapSmall) none true storePre

/-- The post-state of `restoreSmall`. -/
def storeSmallPost : Store := restoreSmall.1

/-- The stats of `restoreSmall`. -/
def statsSmall : RestoreStats :=
  restoreSmall.2.toOption.getD ⟨0, 0, 0, 0, []⟩

/-- The run of `restore` on `snapSmall` with the CLI's `--no-files` flag. -/
def restoreNoFiles : Store × Except RestoreError RestoreStats :=
  restore (some snapSmall) none (cliRestoreFilesFlag true) storePre

/-- The post-state of `restoreNoFiles`. -/
def storeNoFilesPost : Store := restoreNoFiles.1

/-- The stats of `restoreNoFiles`. -/
def statsNoFiles : RestoreStats :=
  restoreNoFiles.2.toOption.getD ⟨0, 0, 0, 0, []⟩

/-- A snapshot with counts documents=10, rows=500, collections=2, files=8,
of which exactly 3 file entries are unreadable. -/
def snapBig : Snapshot :=
  ⟨"2026-02-01_00-00-00",
   List.replicate 10 ⟨0, "d"⟩,
   List.replicate 500 ⟨0, 0, "r"⟩,
   List.replicate 2 ⟨0, "c"⟩,
   [⟨"f1", some [1]⟩, ⟨"f2", some [2]⟩, ⟨"f3", some [3]⟩, ⟨"f4", some [4]⟩,
    ⟨"f5", some [5]⟩, ⟨"f6", none⟩, ⟨"f7", none⟩, ⟨"f8", none⟩]⟩

/-- The run of `restore` on `snapBig` over an empty store, with files. -/
def restoreBig : Store × Except RestoreError RestoreStats :=
  restore (some snapBig) none true store0

/-- The post-state of `restoreBig`. -/
def storeBigPost : Store := restoreBig.1

/-- The stats of `restoreBig`. -/
def statsBig : RestoreStats :=
  restoreBig.2.toOption.getD ⟨0, 0, 0, 0, []⟩

/-- A parsed metadata record for the sample backup root. -/
def metaSample : SnapshotMetadata :=
  ⟨"2026-01-28_15-30-00", 10, 500, 2, 8, 1024, none, "2026-01-28T15:30:00"⟩

/-- A sample backup root with one parsable entry and one entry whose
metadata record does not parse. -/
def rootSample : BackupRoot :=
  ⟨"backend/backups",
   [("2026-01-28_15-30-00", some metaSample), ("2026-01-27_00-00-00", none)]⟩

/-- A snapshot whose dump is empty, so a successful restore reports
`documentsRestored = 0`. -/
def snapEmpty : Snapshot := ⟨"2026-03-01_00-00-00", [], [], [], []⟩

/-! ## Helper lemmas -/

/-- The file phase only touches the uploads location: the four database
tables pass through unchanged. -/
theorem filePhase_preserves_tables (files : List FileEntry) (s : Store) :
    (filePhase files s).1.documents = s.documents ∧
    (filePhase files s).1.rows = s.rows ∧
    (filePhase files s).1.collections = s.collections ∧
    (filePhase files s).1.embeddings = s.embeddings := by
  induction files generalizing s with
  | nil => simp [filePhase]
  | cons e rest ih =>
    cases h : e.content with
    | some c => simpa [filePhase, h] using ih _
    | none => simpa [filePhase, h] using ih s

/-- The file phase restores exactly the readable entries. -/
theorem filePhase_count (files : List FileEntry) (s : Store) :
    (filePhase files s).2.1 =
      (files.filter fun e => e.content.isSome).length := by
  induction files generalizing s with
  | nil => simp [filePhase]
  | cons e rest ih =>
    cases h : e.content with
    | some c => simp [filePhase, h, List.filter_cons, ih]
    | none => simp [filePhase, h, List.filter_cons, ih]

/-- The file phase records exactly one error per unreadable entry. -/
theorem filePhase_errors (files : List FileEntry) (s : Store) :
    (filePhase files s).2.2.length =
      (files.filter fun e => e.content.isNone).length := by
  induction files generalizing s with
  | nil => simp [filePhase]
  | cons e rest ih =>
    cases h : e.content with
    | some c => simp [filePhase, h, List.filter_cons, ih]
    | none => simp [filePhase, h, List.filter_cons, ih]

/-- Readable and unreadable entries partition the archive. -/
theorem filter_readable_partition (files : List FileEntry) :
    (files.filter fun e => e.content.isSome).length +
      (files.filter fun e => e.content.isNone).length = files.length := by
  induction files with
  | nil => rfl
  | cons e rest ih =>
    cases h : e.content <;> simp [List.filter_cons, h] <;> omega

/-- Injecting a failure at any database step aborts the transaction. -/
theorem dbPhaseTxn_failure (snap : Snapshot) (step : DbStep) (s : Store) :
    dbPhaseTxn snap (some step) s = none := by
  cases step <;> rfl

/-- The successful database transaction in closed form. -/
theorem dbPhaseTxn_success (snap : Snapshot) (s : Store) :
    dbPhaseTxn snap none s =
      some
        { documents := snap.docs
          rows := snap.rows
          collections := snap.colls
          embeddings := []
          uploads := s.uploads } := by
  simp [dbPhaseTxn, insertRecords, deleteCollections, deleteDocuments,
    deleteDependents]

/-- A restore hitting an injected database failure, in closed form: the
pre-restore store is returned untouched. -/
theorem restore_failure_eq (snap : Snapshot) (step : DbStep) (rf : Bool)
    (s : Store) :
    restore (some snap) (some step) rf s =
      (s, Except.error RestoreError.databasePhaseFailure) := by
  cases step <;> rfl

/-- A successful restore with the file phase enabled, in closed form. -/
theorem restore_success_true_eq (snap : Snapshot) (s : Store) :
    restore (some snap) none true s =
      ((filePhase snap.files
          { documents := snap.docs, rows := snap.rows,
            collections := snap.colls, embeddings := [],
            uploads := s.uploads }).1,
       Except.ok
         { documentsRestored := snap.docs.length
           rowsRestored := snap.rows.length
           collectionsRestored := snap.colls.length
           filesRestored :=
             (filePhase snap.files
               { documents := snap.docs, rows := snap.rows,
                 collections := snap.colls, embeddings := [],
                 uploads := s.uploads }).2.1
           errors :=
             (filePhase snap.files
               { documents := snap.docs, rows := snap.rows,
                 collections := snap.colls, embeddings := [],
                 uploads := s.uploads }).2.2 }) := rfl

/-- A successful restore with the file phase disabled, in closed form. -/
theorem restore_success_false_eq (snap : Snapshot) (s : Store) :
    restore (some snap) none false s =
      ({ documents := snap.docs, rows := snap.rows,
         collections := snap.colls, embeddings := [], uploads := s.uploads },
       Except.ok
         { documentsRestored := snap.docs.length
           rowsRestored := snap.rows.length
           collectionsRestored := snap.colls.length
           filesRestored := 0
           errors := [] }) := rfl

/-- Inversion of any successful restore: no database failure occurred, the
post-state tables equal the snapshot dump exactly, embeddings are cleared,
and the record counts in the stats match the dump. -/
theorem restore_ok_inv (snap : Snapshot) (failAt : Option DbStep) (rf : Bool)
    (s s' : Store) (stats : RestoreStats)
    (h : restore (some snap) failAt rf s = (s', Except.ok stats)) :
    failAt = none ∧
    s'.documents = snap.docs ∧ s'.rows = snap.rows ∧
    s'.collections = snap.colls ∧ s'.embeddings = [] ∧
    stats.documentsRestored = snap.docs.length ∧
    stats.rowsRestored = snap.rows.length ∧
    stats.collectionsRestored = snap.colls.length := by
  cases failAt with
  | some step =>
    rw [restore_failure_eq] at h
    exact absurd (congrArg Prod.snd h) (by simp)
  | none =>
    cases rf with
    | true =>
      rw [restore_success_true_eq] at h
      simp only [Prod.mk.injEq, Except.ok.injEq] at h
      obtain ⟨rfl, rfl⟩ := h
      exact ⟨rfl, (filePhase_preserves_tables _ _).1,
        (filePhase_preserves_tables _ _).2.1,
        (filePhase_preserves_tables _ _).2.2.1,
        (filePhase_preserves_tables _ _).2.2.2, rfl, rfl, rfl⟩
    | false =>
      rw [restore_success_false_eq] at h
      simp only [Prod.mk.injEq, Except.ok.injEq] at h
      obtain ⟨rfl, rfl⟩ := h
      exact ⟨rfl, rfl, rfl, rfl, rfl, rfl, rfl, rfl⟩

/-- Inversion of a successful restore with the file phase enabled: the stats
count exactly the readable archive entries as restored and record one error
per unreadable entry. -/
theorem restore_ok_files_inv (snap : Snapshot) (failAt : Option DbStep)
    (s s' : Store) (stats : RestoreStats)
    (h : restore (some snap) failAt true s = (s', Except.ok stats)) :
    stats.filesRestored =
      (snap.files.filter fun e => e.content.isSome).length ∧
    stats.errors.length =
      (snap.files.filter fun e => e.content.isNone).length := by
  cases failAt with
  | some step =>
    rw [restore_failure_eq] at h
    exact absurd (congrArg Prod.snd h) (by simp)
  | none =>
    rw [restore_success_true_eq] at h
    simp only [Prod.mk.injEq, Except.ok.injEq] at h
    obtain ⟨rfl, rfl⟩ := h
    exact ⟨filePhase_count _ _, filePhase_errors _ _⟩

/-- Inversion of a successful restore with the file phase disabled: no file
is restored, no error accumulates, and the uploads location is untouched. -/
theorem restore_ok_noFiles_inv (snap : Snapshot) (failAt : Option DbStep)
    (s s' : Store) (stats : RestoreStats)
    (h : restore (some snap) failAt false s = (s', Except.ok stats)) :
    stats.filesRestored = 0 ∧ stats.errors = [] ∧ s'.uploads = s.uploads := by
  cases failAt with
  | some step =>
    rw [restore_failure_eq] at h
    exact absurd (congrArg Prod.snd h) (by simp)
  | none =>
    rw [restore_success_false_eq] at h
    simp only [Prod.mk.injEq, Except.ok.injEq] at h
    obtain ⟨rfl, rfl⟩ := h
    exact ⟨rfl, rfl, rfl⟩

/-! ## Claim theorems -/

/-- C1: if any step of the database phase (delete, bulk-insert, or commit)
fails, the whole database phase rolls back — the live store is returned
exactly as it was before the restore — and the operation fails fatally with
a `DatabasePhaseFailure` that the CLI surfaces as a non-zero exit; no
partial database mutation is observable. -/
theorem restore_dbFailure_rollback_and_exit (snap : Snapshot) (step : DbStep)
    (rf : Bool) (s : Store) (response : String) :
    restore (some snap) (some step) rf s =
      (s, Except.error RestoreError.databasePhaseFailure) ∧
    cliRestoreBranch true response
        (restore (some snap) (some step) rf s).2 = (true, 1) := by
  refine ⟨restore_failure_eq snap step rf s, ?_⟩
  rw [restore_failure_eq]
  rfl

/-- C2: after `restore(id, restoreFiles=true)` returns successfully, the
live document, row and collection tables equal the snapshot's records
exactly — identifiers included — regardless of the pre-restore store
contents (exact replacement, not a merge). -/
theorem restore_exact_replacement (snap : Snapshot) (failAt : Option DbStep)
    (s s' : Store) (stats : RestoreStats)
    (h : restore (some snap) failAt true s = (s', Except.ok stats)) :
    s'.documents = snap.docs ∧ s'.rows = snap.rows ∧
    s'.collections = snap.colls := by
  have h' := restore_ok_inv snap failAt true s s' stats h
  exact ⟨h'.2.1, h'.2.2.1, h'.2.2.2.1⟩

/-- Witness for C2 on a concrete snapshot over a store holding unrelated
pre-restore data. -/
theorem restore_exact_replacement_witness :
    storeSmallPost.documents = snapSmall.docs ∧
    storeSmallPost.rows = snapSmall.rows ∧
    storeSmallPost.collections = snapSmall.colls :=
  restore_exact_replacement snapSmall none storePre storeSmallPost statsSmall
    rfl

/-- C3: each file copy is attempted independently — one unreadable entry
adds one error and processing continues — and file failures never roll back
the committed database phase; in particular a snapshot with counts 10/500/2
and 8 files of which exactly 3 are unreadable yields
`filesRestored = 5`, 3 errors, and database counts 10/500/2. -/
theorem restore_file_failures_independent (snap : Snapshot)
    (failAt : Option DbStep) (s s' : Store) (stats : RestoreStats)
    (h : restore (some snap) failAt true s = (s', Except.ok stats)) :
    stats.filesRestored =
      (snap.files.filter fun e => e.content.isSome).length ∧
    stats.errors.length =
      (snap.files.filter fun e => e.content.isNone).length ∧
    s'.documents = snap.docs ∧ s'.rows = snap.rows ∧
    s'.collections = snap.colls ∧
    (snap.docs.length = 10 → snap.rows.length = 500 →
      snap.colls.length = 2 → snap.files.length = 8 →
      (snap.files.filter fun e => e.content.isNone).length = 3 →
      stats.documentsRestored = 10 ∧ stats.rowsRestored = 500 ∧
        stats.collectionsRestored = 2 ∧ stats.filesRestored = 5 ∧
        stats.errors.length = 3) := by
  have hf := restore_ok_files_inv snap failAt s s' stats h
  have hi := restore_ok_inv snap failAt true s s' stats h
  refine ⟨hf.1, hf.2, hi.2.1, hi.2.2.1, hi.2.2.2.1,
    fun hd hr hc hn h3 => ?_⟩
  have hpart := filter_readable_partition snap.files
  refine ⟨hi.2.2.2.2.2.1.trans hd, hi.2.2.2.2.2.2.1.trans hr,
    hi.2.2.2.2.2.2.2.trans hc, ?_, hf.2.trans h3⟩
  rw [hf.1]
  omega

/-- Witness for C3 on a concrete snapshot with counts 10/500/2 and 8 file
entries of which exactly 3 are unreadable. -/
theorem restore_file_failures_independent_witness :
    statsBig.filesRestored = 5 ∧ statsBig.errors.length = 3 ∧
    statsBig.documentsRestored = 10 ∧ statsBig.rowsRestored = 500 ∧
    statsBig.collectionsRestored = 2 ∧ storeBigPost.documents = snapBig.docs := by
  have h := restore_file_failures_independent snapBig none store0 storeBigPost
    statsBig rfl
  have h5 := h.2.2.2.2.2 (List.length_replicate _ _) (List.length_replicate _ _)
    (List.length_replicate _ _) (by decide) (by decide)
  exact ⟨h5.2.2.2.1, h5.2.2.2.2, h5.1, h5.2.1, h5.2.2.1, h.2.2.1⟩

/-- C4: after any successful restore, the embeddings table is empty — the
pre-existing embeddings were deleted together with their owning rows in the
database phase, and neither phase recreates any — so the count of
embeddings associated with the restored rows is exactly 0. -/
theorem restore_embeddings_cleared (snap : Snapshot) (failAt : Option DbStep)
    (rf : Bool) (s s' : Store) (stats : RestoreStats)
    (h : restore (some snap) failAt rf s = (s', Except.ok stats)) :
    s'.embeddings = [] ∧ s'.embeddings.length = 0 := by
  have h' := restore_ok_inv snap failAt rf s s' stats h
  exact ⟨h'.2.2.2.2.1, by rw [h'.2.2.2.2.1]; rfl⟩

/-- Witness for C4: the concrete pre-restore store holds an embedding, and
none survives the restore. -/
theorem restore_embeddings_cleared_witness :
    storePre.embeddings.length = 1 ∧
    (storeSmallPost.embeddings = [] ∧ storeSmallPost.embeddings.length = 0) :=
  ⟨rfl, restore_embeddings_cleared snapSmall none true storePre storeSmallPost
    statsSmall rfl⟩

/-- C5: `restore(id, restoreFiles=false)` reports `filesRestored = 0` and
leaves the live uploads location byte-for-byte unchanged; the CLI maps
`--no-files` to exactly this call via `restore_files = not args.no_files`. -/
theorem restore_noFiles_frame (snap : Snapshot) (failAt : Option DbStep)
    (s s' : Store) (stats : RestoreStats)
    (h : restore (some snap) failAt (cliRestoreFilesFlag true) s =
      (s', Except.ok stats)) :
    stats.filesRestored = 0 ∧ s'.uploads = s.uploads ∧
    ∀ noFiles : Bool, cliRestoreFilesFlag noFiles = !noFiles := by
  have h' := restore_ok_noFiles_inv snap failAt s s' stats h
  exact ⟨h'.1, h'.2.2, fun _ => rfl⟩

/-- Witness for C5 on a concrete snapshot over a store with a stale upload
that survives untouched. -/
theorem restore_noFiles_frame_witness :
    statsNoFiles.filesRestored = 0 ∧
    storeNoFilesPost.uploads = storePre.uploads ∧
    ∀ noFiles : Bool, cliRestoreFilesFlag noFiles = !noFiles :=
  restore_noFiles_frame snapSmall none storePre storeNoFilesPost statsNoFiles
    rfl

/-- C6: `getSnapshotInfo` returns absence rather than throwing when the id
is malformed, unknown (no such directory), or present with unparsable
metadata; malformed input is treated identically to not-found, and the CLI
branches on the falsiness of the result. -/
theorem getSnapshotInfo_absence :
    (∀ (root : BackupRoot) (id : String), wellFormedTimestampId id = false →
      getSnapshotInfo root id = none) ∧
    (∀ (root : BackupRoot) (id : String), root.entries.lookup id = none →
      getSnapshotInfo root id = none) ∧
    (∀ (root : BackupRoot) (id : String),
      root.entries.lookup id = some none → getSnapshotInfo root id = none) ∧
    (∀ (root : BackupRoot) (id : String), wellFormedTimestampId id = false →
      cliLookupFailed (getSnapshotInfo root id) = true) := by
  have h1 : ∀ (root : BackupRoot) (id : String),
      wellFormedTimestampId id = false → getSnapshotInfo root id = none := by
    intro root id h
    simp [getSnapshotInfo, h]
  refine ⟨h1, ?_, ?_, fun root id h => by rw [cliLookupFailed, h1 root id h]; rfl⟩
  · intro root id h
    by_cases hw : wellFormedTimestampId id
    · simp [getSnapshotInfo, hw, h]
    · simp [getSnapshotInfo, hw]
  · intro root id h
    by_cases hw : wellFormedTimestampId id
    · simp [getSnapshotInfo, hw, h]
    · simp [getSnapshotInfo, hw]

/-- Witness for C6 on a concrete backup root: a malformed id, an unknown
well-formed id, and a directory with an unparsable metadata record all
yield absence. -/
theorem getSnapshotInfo_absence_witness :
    getSnapshotInfo rootSample "not-a-timestamp" = none ∧
    getSnapshotInfo rootSample "2026-01-29_00-00-00" = none ∧
    getSnapshotInfo rootSample "2026-01-27_00-00-00" = none ∧
    cliLookupFailed (getSnapshotInfo rootSample "not-a-timestamp") = true :=
  ⟨getSnapshotInfo_absence.1 rootSample "not-a-timestamp" (by decide),
   getSnapshotInfo_absence.2.1 rootSample "2026-01-29_00-00-00" (by decide),
   getSnapshotInfo_absence.2.2.1 rootSample "2026-01-27_00-00-00" (by decide),
   getSnapshotInfo_absence.2.2.2 rootSample "not-a-timestamp" (by decide)⟩

/-- C7: `listSnapshots` never fails — an empty backup root yields the empty
sequence, a candidate whose metadata record is missing or unparsable is
silently skipped without aborting enumeration of the rest, and the CLI
prints `No backups found.` and exits 0 on an empty result (its `--list`
branch always exits 0). -/
theorem listSnapshots_never_fails :
    (∀ basePath, listSnapshots ⟨basePath, []⟩ = []) ∧
    (∀ (basePath name : String)
      (l1 l2 : List (String × Option SnapshotMetadata)),
      listSnapshots ⟨basePath, l1 ++ (name, none) :: l2⟩ =
        listSnapshots ⟨basePath, l1 ++ l2⟩) ∧
    cliListBranch [] = (0, true) ∧
    (∀ backups, (cliListBranch backups).1 = 0) := by
  refine ⟨fun _ => rfl, fun bp name l1 l2 => ?_, rfl, fun bs => ?_⟩
  · simp [listSnapshots, List.filterMap_append]
  · unfold cliListBranch
    split <;> rfl

/-- C8: the sequence returned by `listSnapshots` is ordered most-recent
first by `timestampId`: descending lexicographically, so every element's
`timestampId` is greater than or equal to every later one's. -/
theorem listSnapshots_sorted_desc (root : BackupRoot) :
    (listSnapshots root).Pairwise
      (fun a b => b.timestampId ≤ a.timestampId) :=
  List.sorted_insertionSort metaDesc _

/-- C9 counterexample: a successful restore of a snapshot whose dump is
empty returns stats with `documentsRestored = 0`, and on those stats the
CLI does not print the embeddings note — so the claim that every returned
stats leads the CLI to state that embeddings are not restored is false as
stated. -/
theorem cli_embedding_note_counterexample :
    restore (some snapEmpty) none true store0 =
      (store0, Except.ok ⟨0, 0, 0, 0, []⟩) ∧
    cliPrintsEmbeddingNote ⟨0, 0, 0, 0, []⟩ = false :=
  ⟨rfl, rfl⟩

/-- C9 amended: on any returned stats the CLI prints at most the first 5
entries of `stats['errors']`, and it states that embeddings are not
restored exactly when `documentsRestored > 0`. -/
theorem cli_reporting_amended (stats : RestoreStats) :
    cliErrorLinesPrinted stats = stats.errors.take 5 ∧
    (cliPrintsEmbeddingNote stats = true ↔ 0 < stats.documentsRestored) := by
  obtain ⟨d, r, c, f, errs⟩ := stats
  cases errs <;> simp [cliErrorLinesPrinted, cliPrintsEmbeddingNote]

/-- The first component of the CLI restore branch records exactly whether
`restore_backup` was invoked, i.e. whether the confirmation gate passed. -/
theorem cliRestoreBranch_invoked (yesFlag : Bool) (response : String)
    (result : Except RestoreError RestoreStats) :
    (cliRestoreBranch yesFlag response result).1 =
      cliConfirmAccepted yesFlag response := by
  unfold cliRestoreBranch
  split
  · next hc => cases result <;> simp [hc]
  · next hc => simp [Bool.not_eq_true] at hc; simp [hc]

/-- C10: without `--yes`, a confirmation response whose stripped, lowercased
form is neither `y` nor `yes` cancels the restore — `restore_backup` is
never invoked and the process exits 0 — and `restore_backup` is invoked
exactly when `--yes` is given or the normalized response is `y`/`yes`. -/
theorem cli_confirmation_gate (yesFlag : Bool) (response : String)
    (result : Except RestoreError RestoreStats)
    (h1 : yesFlag = false)
    (h2 : cliNormalizeResponse response ≠ "y")
    (h3 : cliNormalizeResponse response ≠ "yes") :
    cliRestoreBranch yesFlag response result = (false, 0) ∧
    ∀ (y : Bool) (r : String) (res : Except RestoreError RestoreStats),
      (cliRestoreBranch y r res).1 = true ↔
        (y = true ∨ cliNormalizeResponse r = "y" ∨
          cliNormalizeResponse r = "yes") := by
  constructor
  · subst h1
    have hc : cliConfirmAccepted false response = false := by
      simp [cliConfirmAccepted, h2, h3]
    simp [cliRestoreBranch, hc]
  · intro y r res
    rw [cliRestoreBranch_invoked]
    simp [cliConfirmAccepted]

/-- Witness for C10: with no `--yes` flag and the response `  N `, the
restore is not invoked and the exit code is 0. -/
theorem cli_confirmation_gate_witness :
    cliRestoreBranch false "  N " (Except.error RestoreError.notFound) =
      (false, 0) :=
  (cli_confirmation_gate false "  N " (Except.error RestoreError.notFound)
    rfl (by decide) (by decide)).1

end AgenticRag
